import Mathlib

/-!
Shallow embedding of the Assessment (Quiz) Engine of `src/app.py`:
the quiz data model (`Quiz`, `Question`, `QuestionOption`, `QuizSubmission`,
`QuizAnswer` ORM classes, app.py lines 504-575) and the request handlers
`get_quiz`, `create_quiz`, `start_quiz`, `submit_quiz`
(app.py lines 1848-2089).

Modelling conventions:
- Python floats (`points`, `passing_score`, scores) are modelled as `ℚ`.
- Database rows are Lean structures; a table is a `List` of rows, and
  SQLAlchemy lookups (`query.get`, `filter_by`) become `List.find?` /
  `List.filter` over that list.  A `Question`'s related options are carried
  on the question itself, in insertion (primary-key) order, so
  `QuestionOption.query.filter_by(question_id=q.id, is_correct=True).first()`
  becomes `head?` of the filtered option list of `q`.
- `get_or_404` lookups that merely resolve an id are modelled by passing the
  resolved row as an argument (the NotFound branch carries no logic).
- Timestamps are `Nat` (seconds); `datetime.utcnow()` becomes an explicit
  `now` argument.
- Python `str(...)` on an int and on a list of ints is modelled exactly
  (`pyStrNat`, `pyStrNatList`), because `submit_quiz` compares stringified
  values (`str(correct_option.id) in str(selected)` for multiple_choice and
  `str(correct_option.id) == str(selected)` for true_false).
-/

/-- `QuestionOption` model (app.py lines 539-545). -/
structure QuestionOption where
  id : Nat
  question_id : Nat
  option_text : String
  is_correct : Bool
  order : Nat
deriving DecidableEq, Repr

/-- `Question` model (app.py lines 525-537); `options` is the related
`QuestionOption` list, in insertion (primary-key) order. -/
structure Question where
  id : Nat
  quiz_id : Nat
  question_type : String
  question_text : String
  explanation : Option String
  points : ℚ
  order : Nat
  is_required : Bool
  options : List QuestionOption
deriving DecidableEq, Repr

/-- `Quiz` model (app.py lines 504-523), fields used by the embedded
handlers. -/
structure Quiz where
  id : Nat
  module_id : Nat
  title : String
  description : Option String
  quiz_type : String
  time_limit : Option Nat
  max_attempts : Nat
  passing_score : ℚ
  shuffle_questions : Bool
  show_results : Bool
  is_published : Bool
deriving DecidableEq, Repr

/-- `QuizSubmission` model (app.py lines 547-562): one attempt of a quiz by
a student.  Score fields are `none` until submission; `submitted_at = none`
means the attempt is still in progress. -/
structure QuizSubmission where
  id : Nat
  quiz_id : Nat
  student_id : Nat
  attempt_number : Nat
  score : Option ℚ
  max_score : Option ℚ
  percentage : Option ℚ
  passed : Option Bool
  started_at : Nat
  submitted_at : Option Nat
  time_spent_seconds : Option Nat
deriving DecidableEq, Repr

/-- `QuizAnswer` model (app.py lines 564-575): a student's recorded answer
to one question.  `is_correct` is a nullable boolean column, hence
`Option Bool`. -/
structure QuizAnswer where
  submission_id : Nat
  question_id : Nat
  answer_text : Option String
  selected_options : List Nat
  is_correct : Option Bool
  points_earned : ℚ
deriving DecidableEq, Repr

/-- The resolved acting principal (`get_current_user()`): id and role. -/
structure UserM where
  id : Nat
  role : String
deriving DecidableEq, Repr

/-- One element of the `answers` array of the submit request body:
`question_id`, optional `answer_text`, and the `selected_options` list of
option ids (`ans_data.get('selected_options', [])`). -/
structure AnsData where
  question_id : Nat
  answer_text : Option String
  selected_options : List Nat
deriving DecidableEq, Repr

/-- Python `str(n)` for a non-negative int: decimal digits. -/
def pyStrNat (n : Nat) : String :=
  Nat.repr n

/-- Python `str(l)` for a list of ints: `str([12, 5]) = "[12, 5]"`. -/
def pyStrNatList (l : List Nat) : String :=
  "[" ++ String.intercalate ", " (l.map pyStrNat) ++ "]"

/-- Whether the character list `needle` occurs at the head of `hay`. -/
def charsStartWith : List Char → List Char → Bool
  | [], _ => true
  | _ :: _, [] => false
  | n :: ns, h :: hs => n == h && charsStartWith ns hs

/-- Whether the character list `needle` occurs anywhere inside `hay`. -/
def charsHas (needle : List Char) : List Char → Bool
  | [] => needle.isEmpty
  | h :: hs => charsStartWith needle (h :: hs) || charsHas needle hs

/-- Python `needle in hay` for strings: substring containment. -/
def pyStrIn (needle hay : String) : Bool :=
  charsHas needle.data hay.data

/-- `QuestionOption.query.filter_by(question_id=question.id, is_correct=True).first()`
(app.py lines 2027-2030 and 2036-2039): the first option of the question
marked correct, if any. -/
def correctOption (q : Question) : Option QuestionOption :=
  (q.options.filter (fun o => o.is_correct)).head?

/-- The per-answer scoring of `submit_quiz` (app.py lines 2022-2046):
given the resolved question and one submitted answer, the
`(is_correct, points_earned)` pair.  Both are initialised to
`(False, 0)`; the `multiple_choice` branch tests
`str(correct_option.id) in str(selected_options)`, the `true_false` branch
tests `str(correct_option.id) == str(selected_options)`, and the
`short_answer` branch (and any unknown type) leaves `(False, 0)`. -/
def scoreAnswer (question : Question) (ans : AnsData) : Bool × ℚ :=
  if question.question_type = "multiple_choice" then
    match correctOption question with
    | some co =>
        if pyStrIn (pyStrNat co.id) (pyStrNatList ans.selected_options) then
          (true, question.points)
        else
          (false, 0)
    | none => (false, 0)
  else if question.question_type = "true_false" then
    match correctOption question with
    | some co =>
        if pyStrNat co.id = pyStrNatList ans.selected_options then
          (true, question.points)
        else
          (false, 0)
    | none => (false, 0)
  else
    (false, 0)

/-- The scoring loop of `submit_quiz` (app.py lines 2012-2059): walks the
submitted answers; an answer whose `question_id` resolves to no stored
question is skipped (`continue`); otherwise the question's `points` are
added to `total_points`, the answer is scored by `scoreAnswer`, its earned
points added to `earned_points`, and a `QuizAnswer` row is recorded.
Returns `(total_points, earned_points, answer rows)`. -/
def scoreLoop (questions : List Question) (sid : Nat) :
    List AnsData → ℚ × ℚ × List QuizAnswer
  | [] => (0, 0, [])
  | ans :: rest =>
    match questions.find? (fun q => q.id == ans.question_id) with
    | none => scoreLoop questions sid rest
    | some question =>
      let scored := scoreAnswer question ans
      let tail := scoreLoop questions sid rest
      (question.points + tail.1, scored.2 + tail.2.1,
        { submission_id := sid
          question_id := question.id
          answer_text := ans.answer_text
          selected_options := ans.selected_options
          is_correct := some scored.1
          points_earned := scored.2 } :: tail.2.2)

/-- Error outcomes of the embedded `submit_quiz` handler. -/
inductive SubmitError where
  | Unauthorized
  | AccessDenied
  | AlreadySubmitted
deriving DecidableEq, Repr

/-- The `result` object returned by `submit_quiz` (app.py lines 2080-2089). -/
structure SubmitResult where
  score : ℚ
  max_score : ℚ
  percentage : ℚ
  passed : Bool
deriving DecidableEq, Repr

/-- `submit_quiz` (app.py lines 1990-2089).  `quiz` is the row resolved from
the URL `quiz_id`; `submission` is the row resolved from the request body's
`submission_id` — the handler never checks that `submission.quiz_id` equals
the URL quiz's id.  Checks: a principal must be present (401), the
submission must belong to the caller (403), and the submission must not
already be submitted (400 `Already submitted`).  Then the scoring loop runs,
`percentage = earned/total*100` when `total > 0` else `0`,
`passed = percentage >= quiz.passing_score` against the URL quiz, and the
submission row is updated.  On success returns the updated submission, the
`QuizAnswer` rows written, and the result; on error nothing is written. -/
def submit_quiz (quiz : Quiz) (questions : List Question) (user : Option UserM)
    (submission : QuizSubmission) (answers : List AnsData) (now : Nat) :
    Except SubmitError (QuizSubmission × List QuizAnswer × SubmitResult) :=
  match user with
  | none => .error .Unauthorized
  | some u =>
    if submission.student_id ≠ u.id then
      .error .AccessDenied
    else if submission.submitted_at.isSome then
      .error .AlreadySubmitted
    else
      let scored := scoreLoop questions submission.id answers
      let total_points := scored.1
      let earned_points := scored.2.1
      let percentage : ℚ := if total_points > 0 then earned_points / total_points * 100 else 0
      let passed : Bool := decide (percentage ≥ quiz.passing_score)
      .ok ({ submission with
              score := some earned_points
              max_score := some total_points
              percentage := some percentage
              passed := some passed
              submitted_at := some now
              time_spent_seconds := some (now - submission.started_at) },
           scored.2.2,
           { score := earned_points
             max_score := total_points
             percentage := percentage
             passed := passed })

/-- Error outcomes of the embedded `start_quiz` handler. -/
inductive StartError where
  | Unauthorized
  | QuizNotAvailable
  | MaxAttemptsReached
deriving DecidableEq, Repr

/-- The attempt rows of the `quiz_submission` table belonging to one
(quiz, student) pair: `QuizSubmission.query.filter_by(quiz_id=..., student_id=...)`. -/
def pairAttempts (quiz : Quiz) (uid : Nat) (store : List QuizSubmission) :
    List QuizSubmission :=
  store.filter (fun s => s.quiz_id == quiz.id && s.student_id == uid)

/-- `start_quiz` (app.py lines 1951-1988).  `quiz` is the row resolved from
the URL `quiz_id`, `user` the resolved principal, `store` the
`quiz_submission` table, `newId` the database-assigned primary key of a new
row, `now` the clock.  Checks: the quiz must be published (403); the count
of the caller's attempts on this quiz must be below `max_attempts`
(400 `Maximum attempts reached`).  On success a new `QuizSubmission` row
with `attempt_number = count + 1` is inserted; returns the new row and the
updated table.  On error nothing is inserted.  The row construction
(app.py lines 1972-1977) is split out as `newSubmission`. -/
def newSubmission (quiz : Quiz) (user : UserM) (store : List QuizSubmission)
    (newId now : Nat) : QuizSubmission :=
  { id := newId
    quiz_id := quiz.id
    student_id := user.id
    attempt_number := (pairAttempts quiz user.id store).length + 1
    score := none
    max_score := none
    percentage := none
    passed := none
    started_at := now
    submitted_at := none
    time_spent_seconds := none }

/-- The `start_quiz` handler body; see the comment on `newSubmission`
above for the correspondence to app.py lines 1951-1988. -/
def start_quiz (quiz : Quiz) (user : UserM) (store : List QuizSubmission)
    (newId now : Nat) :
    Except StartError (QuizSubmission × List QuizSubmission) :=
  if quiz.is_published = false then
    .error .QuizNotAvailable
  else if (pairAttempts quiz user.id store).length ≥ quiz.max_attempts then
    .error .MaxAttemptsReached
  else
    .ok (newSubmission quiz user store newId now,
         store ++ [newSubmission quiz user store newId now])

/-- The states of the `quiz_submission` table reachable, for a fixed quiz
and student, from a table holding no attempt of that pair by repeatedly
calling `start_quiz` for the pair and keeping the successful results
(a failed call returns an error and leaves the table unchanged, so error
steps need no rule). -/
inductive StartReachable (quiz : Quiz) (uid : Nat) : List QuizSubmission → Prop
  | init (store : List QuizSubmission)
      (h : pairAttempts quiz uid store = []) :
      StartReachable quiz uid store
  | step (store : List QuizSubmission) (u : UserM) (newId now : Nat)
      (sub : QuizSubmission) (next : List QuizSubmission)
      (hu : u.id = uid)
      (h : StartReachable quiz uid store)
      (hok : start_quiz quiz u store newId now = .ok (sub, next)) :
      StartReachable quiz uid next

/-- Whether the optional principal has role admin or instructor:
`user and user.role in ['admin', 'instructor']`. -/
def isInstructorOrAdmin : Option UserM → Bool
  | none => false
  | some u => u.role == "admin" || u.role == "instructor"

/-- Whether the optional principal is a student:
`user and user.role == 'student'`. -/
def isStudentUser : Option UserM → Bool
  | none => false
  | some u => u.role == "student"

/-- One serialized option of the `get_quiz` payload (app.py lines
1878-1882): only `id`, `option_text` and `order` are ever serialized —
there is no `is_correct` field in the payload type at all. -/
structure OptionPayload where
  id : Nat
  option_text : String
  order : Nat
deriving DecidableEq, Repr

/-- One serialized question of the `get_quiz` payload (app.py lines
1872-1883).  `options` is `none` exactly when the payload's `options`
entry is JSON `null`. -/
structure QuestionPayload where
  id : Nat
  question_type : String
  question_text : String
  points : ℚ
  order : Nat
  options : Option (List OptionPayload)
deriving DecidableEq, Repr

/-- The quiz object of the `get_quiz` payload (app.py lines 1860-1885). -/
structure QuizPayload where
  id : Nat
  module_id : Nat
  title : String
  description : Option String
  quiz_type : String
  time_limit : Option Nat
  max_attempts : Nat
  passing_score : ℚ
  shuffle_questions : Bool
  show_results : Bool
  questions : List QuestionPayload
deriving DecidableEq, Repr

/-- Error outcome of the embedded `get_quiz` handler. -/
inductive GetQuizError where
  | NotFound
deriving DecidableEq, Repr

/-- A question's options sorted by their `order` column
(`q.options.order_by('option.order')`). -/
def sortedOptions (q : Question) : List QuestionOption :=
  q.options.mergeSort (fun a b => a.order ≤ b.order)

/-- The serialization of one question inside `get_quiz` (app.py lines
1872-1883): the `options` entry is `None if user and user.role == 'student'`,
and otherwise the option rows sorted by `order`, each reduced to
`id`/`option_text`/`order`. -/
def serializeQuestion (user : Option UserM) (q : Question) : QuestionPayload :=
  { id := q.id
    question_type := q.question_type
    question_text := q.question_text
    points := q.points
    order := q.order
    options :=
      if isStudentUser user then
        none
      else
        some ((sortedOptions q).map (fun o =>
          { id := o.id, option_text := o.option_text, order := o.order })) }

/-- `get_quiz` (app.py lines 1848-1885).  `quiz` is the row resolved from
the URL, `questions` its question rows (`quiz.questions.all()`), `user` the
optional principal.  An unpublished quiz is a 404 for every caller who is
not admin/instructor; otherwise the quiz and its questions are serialized
by `serializeQuestion`. -/
def get_quiz (quiz : Quiz) (questions : List Question) (user : Option UserM) :
    Except GetQuizError QuizPayload :=
  if quiz.is_published = false ∧ isInstructorOrAdmin user = false then
    .error .NotFound
  else
    .ok { id := quiz.id
          module_id := quiz.module_id
          title := quiz.title
          description := quiz.description
          quiz_type := quiz.quiz_type
          time_limit := quiz.time_limit
          max_attempts := quiz.max_attempts
          passing_score := quiz.passing_score
          shuffle_questions := quiz.shuffle_questions
          show_results := quiz.show_results
          questions := questions.map (serializeQuestion user) }

/-- One option of the `create_quiz` request body, with the handler's
defaults already applied (`opt_data.get('is_correct', False)`). -/
structure OptData where
  option_text : String
  is_correct : Bool
deriving DecidableEq, Repr

/-- One question of the `create_quiz` request body, with defaults applied
(`q_data.get('points', 1.0)`, `q_data.get('is_required', True)`). -/
structure QData where
  question_type : String
  question_text : String
  explanation : Option String
  points : ℚ
  is_required : Bool
  options : List OptData
deriving DecidableEq, Repr

/-- The `create_quiz` request body, with the handler's defaults applied
(app.py lines 1897-1910). -/
structure QuizData where
  module_id : Nat
  title : String
  description : Option String
  quiz_type : String
  time_limit : Option Nat
  max_attempts : Nat
  passing_score : ℚ
  shuffle_questions : Bool
  show_results : Bool
  is_published : Bool
  questions : List QData
deriving DecidableEq, Repr

/-- Error outcome of the embedded `create_quiz` handler.  The source
handler has a single error exit, the 403 role check — it performs no
validation of question types, points, or option correctness flags. -/
inductive CreateQuizError where
  | Unauthorized
deriving DecidableEq, Repr

/-- The inner option loop of `create_quiz` (app.py lines 1931-1939):
`for j, opt_data in enumerate(q_data['options'])`, each stored with
`order = j` and `is_correct` exactly as supplied.  Database-assigned
option primary keys are abstracted as the index `j`. -/
def buildOptions (qid : Nat) : Nat → List OptData → List QuestionOption
  | _, [] => []
  | j, od :: rest =>
    { id := j
      question_id := qid
      option_text := od.option_text
      is_correct := od.is_correct
      order := j } :: buildOptions qid (j + 1) rest

/-- The question loop of `create_quiz` (app.py lines 1916-1939):
`for i, q_data in enumerate(data['questions'])`, each stored with
`order = i` and its options stored by `buildOptions`.  Database-assigned
question primary keys are modelled as `qidBase + i`. -/
def buildQuestions (quizId qidBase : Nat) : Nat → List QData → List Question
  | _, [] => []
  | i, qd :: rest =>
    { id := qidBase + i
      quiz_id := quizId
      question_type := qd.question_type
      question_text := qd.question_text
      explanation := qd.explanation
      points := qd.points
      order := i
      is_required := qd.is_required
      options := buildOptions (qidBase + i) 0 qd.options } :: buildQuestions quizId qidBase (i + 1) rest

/-- `create_quiz` (app.py lines 1887-1949).  Only check: the caller must be
admin or instructor (403).  The quiz row and every supplied question and
option row are then stored exactly as given — in particular no check is
made on how many options of a question carry `is_correct = True`. -/
def create_quiz (user : Option UserM) (data : QuizData) (quizId qidBase : Nat) :
    Except CreateQuizError (Quiz × List Question) :=
  if isInstructorOrAdmin user = false then
    .error .Unauthorized
  else
    .ok ({ id := quizId
           module_id := data.module_id
           title := data.title
           description := data.description
           quiz_type := data.quiz_type
           time_limit := data.time_limit
           max_attempts := data.max_attempts
           passing_score := data.passing_score
           shuffle_questions := data.shuffle_questions
           show_results := data.show_results
           is_published := data.is_published },
         buildQuestions quizId qidBase 0 data.questions)

/-- Written from the spec's words, for comparison with the code
(`maxScore = Σ points over every scoreable question included in the quiz`,
short_answer included): the sum of `points` over every stored question
belonging to the quiz, independent of the submitted answers. -/
def specMaxScore (questions : List Question) (quizId : Nat) : ℚ :=
  (((questions.filter (fun q => q.quiz_id == quizId)).map Question.points)).sum

/-- The set of option ids marked correct for a question, as the spec's
scoring rule reads it. -/
def specCorrectIds (q : Question) : List Nat :=
  (q.options.filter (fun o => o.is_correct)).map QuestionOption.id

/-! Concrete fixtures used by counterexamples and witnesses. -/

/-- A student principal. -/
def studentUser : UserM :=
  { id := 7, role := "student" }

/-- An instructor principal. -/
def instructorUser : UserM :=
  { id := 3, role := "instructor" }

/-- A multiple_choice question whose correct option has id 1 and whose
wrong option has id 12, so that the decimal text of the correct id is a
substring of the text of the wrong id. -/
def mcQuestion : Question :=
  { id := 21
    quiz_id := 4
    question_type := "multiple_choice"
    question_text := "Capital of France?"
    explanation := none
    points := 1
    order := 0
    is_required := true
    options :=
      [ { id := 1, question_id := 21, option_text := "Paris", is_correct := true, order := 0 },
        { id := 12, question_id := 21, option_text := "London", is_correct := false, order := 1 } ] }

/-- A submitted answer to `mcQuestion` selecting only the wrong option 12. -/
def mcWrongAnswer : AnsData :=
  { question_id := 21, answer_text := none, selected_options := [12] }

/-- A submitted answer to `mcQuestion` selecting only the correct option 1. -/
def mcRightAnswer : AnsData :=
  { question_id := 21, answer_text := none, selected_options := [1] }

/-- A true_false question whose correct option has id 5. -/
def tfQuestion : Question :=
  { id := 22
    quiz_id := 4
    question_type := "true_false"
    question_text := "The sky is blue."
    explanation := none
    points := 2
    order := 1
    is_required := true
    options :=
      [ { id := 5, question_id := 22, option_text := "True", is_correct := true, order := 0 },
        { id := 6, question_id := 22, option_text := "False", is_correct := false, order := 1 } ] }

/-- A submitted answer to `tfQuestion` selecting exactly the correct
option id 5, as in the spec's scenario. -/
def tfRightAnswer : AnsData :=
  { question_id := 22, answer_text := none, selected_options := [5] }

/-- A short_answer question worth 5 points, no options. -/
def saQuestion : Question :=
  { id := 23
    quiz_id := 4
    question_type := "short_answer"
    question_text := "Explain briefly."
    explanation := none
    points := 5
    order := 2
    is_required := true
    options := [] }

/-- A submitted answer to `saQuestion`. -/
def saAnswer : AnsData :=
  { question_id := 23, answer_text := some "because", selected_options := [] }

/-- A published quiz fixture (id 4, two allowed attempts, passing score 60). -/
def quizFix : Quiz :=
  { id := 4
    module_id := 2
    title := "Geography basics"
    description := none
    quiz_type := "quiz"
    time_limit := none
    max_attempts := 2
    passing_score := 60
    shuffle_questions := true
    show_results := true
    is_published := true }

/-- A published quiz fixture with passing score 0 and an id different
from `quizFix`. -/
def quizZeroPass : Quiz :=
  { id := 9
    module_id := 2
    title := "Warmup"
    description := none
    quiz_type := "practice"
    time_limit := none
    max_attempts := 1
    passing_score := 0
    shuffle_questions := false
    show_results := true
    is_published := true }

/-- An in-progress attempt of `studentUser` on `quizFix`. -/
def subFix : QuizSubmission :=
  { id := 31
    quiz_id := 4
    student_id := 7
    attempt_number := 1
    score := none
    max_score := none
    percentage := none
    passed := none
    started_at := 100
    submitted_at := none
    time_spent_seconds := none }

/-- A `create_quiz` request whose only question is a multiple_choice
question with two options, neither marked correct. -/
def zeroCorrectData : QuizData :=
  { module_id := 2
    title := "Broken quiz"
    description := none
    quiz_type := "quiz"
    time_limit := none
    max_attempts := 1
    passing_score := 60
    shuffle_questions := true
    show_results := true
    is_published := false
    questions :=
      [ { question_type := "multiple_choice"
          question_text := "Pick one"
          explanation := none
          points := 1
          is_required := true
          options :=
            [ { option_text := "A", is_correct := false },
              { option_text := "B", is_correct := false } ] } ] }

/-- A `create_quiz` request whose only question is a multiple_choice
question with two options, both marked correct. -/
def twoCorrectData : QuizData :=
  { zeroCorrectData with
    questions :=
      [ { question_type := "multiple_choice"
          question_text := "Pick one"
          explanation := none
          points := 1
          is_required := true
          options :=
            [ { option_text := "A", is_correct := true },
              { option_text := "B", is_correct := true } ] } ] }

/-- The attempt row created by a first `start_quiz` call of `studentUser`
on `quizFix` against an empty table. -/
def subW1 : QuizSubmission :=
  newSubmission quizFix studentUser [] 50 100

/-- The attempt row created by a second `start_quiz` call, against the
table holding `subW1`. -/
def subW2 : QuizSubmission :=
  newSubmission quizFix studentUser [subW1] 51 200

/-- The table after two successful starts. -/
def stW2 : List QuizSubmission :=
  [subW1, subW2]

/-- `subFix` after a successful submission with an empty answer list at
time 200. -/
def subDone : QuizSubmission :=
  { subFix with
    score := some 0
    max_score := some 0
    percentage := some 0
    passed := some false
    submitted_at := some 200
    time_spent_seconds := some 100 }

/-- The result of submitting an empty answer list on `quizFix`. -/
def resEmpty : SubmitResult :=
  { score := 0, max_score := 0, percentage := 0, passed := false }

/-- The answer row recorded for `mcRightAnswer` on submission 31. -/
def mcAnswerRow : QuizAnswer :=
  { submission_id := 31
    question_id := 21
    answer_text := none
    selected_options := [1]
    is_correct := some true
    points_earned := 1 }

/-- `subFix` after a successful submission of `[mcRightAnswer]` at time
200 (score 1 of 1, 100%, passed). -/
def subScored : QuizSubmission :=
  { subFix with
    score := some 1
    max_score := some 1
    percentage := some 100
    passed := some true
    submitted_at := some 200
    time_spent_seconds := some 100 }

/-- The result of submitting `[mcRightAnswer]` on `quizFix`. -/
def resScored : SubmitResult :=
  { score := 1, max_score := 1, percentage := 100, passed := true }

/-! Helper lemmas. -/

theorem scoreLoop_nil (questions : List Question) (sid : Nat) :
    scoreLoop questions sid [] = (0, 0, []) := rfl

theorem scoreLoop_cons (questions : List Question) (sid : Nat)
    (ans : AnsData) (rest : List AnsData) :
    scoreLoop questions sid (ans :: rest) =
      match questions.find? (fun qq => qq.id == ans.question_id) with
      | none => scoreLoop questions sid rest
      | some q =>
        (q.points + (scoreLoop questions sid rest).1,
         (scoreAnswer q ans).2 + (scoreLoop questions sid rest).2.1,
         { submission_id := sid
           question_id := q.id
           answer_text := ans.answer_text
           selected_options := ans.selected_options
           is_correct := some (scoreAnswer q ans).1
           points_earned := (scoreAnswer q ans).2 } :: (scoreLoop questions sid rest).2.2) := rfl

theorem scoreLoop_cons_none (questions : List Question) (sid : Nat)
    (ans : AnsData) (rest : List AnsData)
    (hfind : questions.find? (fun q => q.id == ans.question_id) = none) :
    scoreLoop questions sid (ans :: rest) = scoreLoop questions sid rest := by
  rw [scoreLoop_cons, hfind]

theorem scoreLoop_cons_some (questions : List Question) (sid : Nat)
    (ans : AnsData) (rest : List AnsData) (q : Question)
    (hfind : questions.find? (fun qq => qq.id == ans.question_id) = some q) :
    scoreLoop questions sid (ans :: rest) =
      (q.points + (scoreLoop questions sid rest).1,
       (scoreAnswer q ans).2 + (scoreLoop questions sid rest).2.1,
       { submission_id := sid
         question_id := q.id
         answer_text := ans.answer_text
         selected_options := ans.selected_options
         is_correct := some (scoreAnswer q ans).1
         points_earned := (scoreAnswer q ans).2 } :: (scoreLoop questions sid rest).2.2) := by
  rw [scoreLoop_cons, hfind]

/-- Per-answer earned points are either zero or the full question points. -/
theorem scoreAnswer_points_cases (q : Question) (a : AnsData) :
    (scoreAnswer q a).2 = 0 ∨ (scoreAnswer q a).2 = q.points := by
  unfold scoreAnswer
  cases h : correctOption q <;> simp only [h] <;> split_ifs <;> simp

/-- Along the scoring loop, earned points are non-negative and bounded by
total points, provided every stored question has non-negative points. -/
theorem scoreLoop_earned_le_total (questions : List Question) (sid : Nat)
    (hpts : ∀ q ∈ questions, 0 ≤ q.points) (answers : List AnsData) :
    0 ≤ (scoreLoop questions sid answers).2.1 ∧
    (scoreLoop questions sid answers).2.1 ≤ (scoreLoop questions sid answers).1 := by
  induction answers with
  | nil => simp [scoreLoop_nil]
  | cons ans rest ih =>
    cases hfind : questions.find? (fun qq => qq.id == ans.question_id) with
    | none =>
      rw [scoreLoop_cons_none questions sid ans rest hfind]
      exact ih
    | some q =>
      have hq0 : 0 ≤ q.points := hpts q (List.mem_of_find?_eq_some hfind)
      rw [scoreLoop_cons_some questions sid ans rest q hfind]
      rcases scoreAnswer_points_cases q ans with h | h <;> rw [h] <;> dsimp only <;>
        exact ⟨by linarith [ih.1], by linarith [ih.1, ih.2]⟩

/-- The total of the scoring loop is the sum, over the submitted answers,
of the resolved question's points (zero for an unresolved reference). -/
theorem scoreLoop_total_eq_sum (questions : List Question) (sid : Nat)
    (answers : List AnsData) :
    (scoreLoop questions sid answers).1 =
      (answers.map (fun a =>
        match questions.find? (fun qq => qq.id == a.question_id) with
        | some q => q.points
        | none => 0)).sum := by
  induction answers with
  | nil => simp [scoreLoop_nil]
  | cons ans rest ih =>
    cases hfind : questions.find? (fun qq => qq.id == ans.question_id) with
    | none =>
      rw [scoreLoop_cons_none questions sid ans rest hfind]
      simp [hfind, ih]
    | some q =>
      rw [scoreLoop_cons_some questions sid ans rest q hfind]
      simp [hfind, ih]

/-- On a well-formed call (caller owns the submission, not yet submitted),
`submit_quiz` succeeds and its output is the scoring loop's result. -/
theorem submit_quiz_eq_ok (quiz : Quiz) (questions : List Question) (u : UserM)
    (submission : QuizSubmission) (answers : List AnsData) (now : Nat)
    (hstu : submission.student_id = u.id) (hns : submission.submitted_at = none) :
    submit_quiz quiz questions (some u) submission answers now =
      .ok ({ submission with
              score := some (scoreLoop questions submission.id answers).2.1
              max_score := some (scoreLoop questions submission.id answers).1
              percentage := some (if (scoreLoop questions submission.id answers).1 > 0 then
                  (scoreLoop questions submission.id answers).2.1 /
                    (scoreLoop questions submission.id answers).1 * 100
                else 0)
              passed := some (decide ((if (scoreLoop questions submission.id answers).1 > 0 then
                  (scoreLoop questions submission.id answers).2.1 /
                    (scoreLoop questions submission.id answers).1 * 100
                else 0) ≥ quiz.passing_score))
              submitted_at := some now
              time_spent_seconds := some (now - submission.started_at) },
           (scoreLoop questions submission.id answers).2.2,
           { score := (scoreLoop questions submission.id answers).2.1
             max_score := (scoreLoop questions submission.id answers).1
             percentage := (if (scoreLoop questions submission.id answers).1 > 0 then
                 (scoreLoop questions submission.id answers).2.1 /
                   (scoreLoop questions submission.id answers).1 * 100
               else 0)
             passed := decide ((if (scoreLoop questions submission.id answers).1 > 0 then
                 (scoreLoop questions submission.id answers).2.1 /
                   (scoreLoop questions submission.id answers).1 * 100
               else 0) ≥ quiz.passing_score) }) := by
  unfold submit_quiz
  simp [hstu, hns]

/-- `start_quiz` succeeds, inserting the new row, exactly when the quiz is
published and the pair's attempt count is below the limit. -/
theorem start_quiz_eq_ok (quiz : Quiz) (u : UserM) (store : List QuizSubmission)
    (newId now : Nat) (hpub : quiz.is_published = true)
    (hlt : (pairAttempts quiz u.id store).length < quiz.max_attempts) :
    start_quiz quiz u store newId now =
      .ok (newSubmission quiz u store newId now,
           store ++ [newSubmission quiz u store newId now]) := by
  unfold start_quiz
  rw [if_neg (by simp [hpub]), if_neg (Nat.not_le.mpr hlt)]

/-- `start_quiz` fails with `MaxAttemptsReached` when the pair's attempt
count already meets the limit (and creates nothing: the error carries no
new row). -/
theorem start_quiz_limit (quiz : Quiz) (u : UserM) (store : List QuizSubmission)
    (newId now : Nat) (hpub : quiz.is_published = true)
    (hge : quiz.max_attempts ≤ (pairAttempts quiz u.id store).length) :
    start_quiz quiz u store newId now = .error .MaxAttemptsReached := by
  unfold start_quiz
  rw [if_neg (by simp [hpub]), if_pos hge]

/-- Inserting the freshly created attempt row extends the pair's attempt
list by exactly that row. -/
theorem pairAttempts_append_new (quiz : Quiz) (uid : Nat) (u : UserM)
    (store : List QuizSubmission) (newId now : Nat) (hu : u.id = uid) :
    pairAttempts quiz uid (store ++ [newSubmission quiz u store newId now]) =
      pairAttempts quiz uid store ++ [newSubmission quiz u store newId now] := by
  unfold pairAttempts newSubmission
  rw [List.filter_append]
  simp [hu]

/-- Invariant of the reachable attempt-table states: the pair's attempt
numbers are exactly `1, 2, ..., n` in order, and `n` never exceeds the
quiz's `max_attempts`. -/
theorem startReachable_attempt_numbers (quiz : Quiz) (uid : Nat)
    (store : List QuizSubmission) (h : StartReachable quiz uid store) :
    (pairAttempts quiz uid store).map QuizSubmission.attempt_number =
      List.range' 1 (pairAttempts quiz uid store).length ∧
    (pairAttempts quiz uid store).length ≤ quiz.max_attempts := by
  induction h with
  | init store h0 =>
    rw [h0]
    simp
  | step store u newId now sub next hu hr hok ih =>
    by_cases hpub : quiz.is_published = false
    · rw [start_quiz, if_pos hpub] at hok
      exact absurd hok (by simp)
    by_cases hge : quiz.max_attempts ≤ (pairAttempts quiz u.id store).length
    · rw [start_quiz, if_neg hpub, if_pos hge] at hok
      exact absurd hok (by simp)
    rw [start_quiz, if_neg hpub, if_neg hge, Except.ok.injEq, Prod.mk.injEq] at hok
    obtain ⟨hsub, hnext⟩ := hok
    subst hsub
    subst hnext
    rw [pairAttempts_append_new quiz uid u store newId now hu]
    rw [hu] at hge
    constructor
    · rw [List.map_append, ih.1, List.length_append]
      have hnum : (newSubmission quiz u store newId now).attempt_number =
          (pairAttempts quiz uid store).length + 1 := by
        simp [newSubmission, hu]
      simp [hnum, List.range'_concat]
      omega
    · rw [List.length_append]
      simp only [List.length_singleton]
      omega

/-- `create_quiz` succeeds for an admin/instructor caller and stores the
quiz and question rows built from the request. -/
theorem create_quiz_eq_ok (u : UserM) (data : QuizData) (quizId qidBase : Nat)
    (hadmin : isInstructorOrAdmin (some u) = true) :
    create_quiz (some u) data quizId qidBase =
      .ok ({ id := quizId
             module_id := data.module_id
             title := data.title
             description := data.description
             quiz_type := data.quiz_type
             time_limit := data.time_limit
             max_attempts := data.max_attempts
             passing_score := data.passing_score
             shuffle_questions := data.shuffle_questions
             show_results := data.show_results
             is_published := data.is_published },
           buildQuestions quizId qidBase 0 data.questions) := by
  unfold create_quiz
  rw [hadmin]
  simp

/-- The stored options of a question keep exactly the supplied
`is_correct` flags: the count of correct-marked options is preserved. -/
theorem buildOptions_correct_count (qid : Nat) (ods : List OptData) :
    ∀ j : Nat,
      ((buildOptions qid j ods).filter (fun o => o.is_correct)).length =
        (ods.filter (fun od => od.is_correct)).length := by
  induction ods with
  | nil => intro j; rfl
  | cons od rest ih =>
    intro j
    unfold buildOptions
    cases hc : od.is_correct <;> simp [List.filter_cons, hc, ih (j + 1)]

/-- The stored questions carry, one for one, the supplied correct-option
counts. -/
theorem buildQuestions_correct_counts (quizId qidBase : Nat) (qds : List QData) :
    ∀ i : Nat,
      (buildQuestions quizId qidBase i qds).map
          (fun q => (q.options.filter (fun o => o.is_correct)).length) =
        qds.map (fun qd => (qd.options.filter (fun od => od.is_correct)).length) := by
  induction qds with
  | nil => intro i; rfl
  | cons qd rest ih =>
    intro i
    unfold buildQuestions
    simp [buildOptions_correct_count, ih (i + 1)]

/-! Claim theorems. -/

/-- Claim C1: the spec requires full points for a multiple_choice answer
exactly when the submitted set of option ids equals the set of ids marked
correct.  The code instead tests `str(correct_option.id) in
str(selected_options)`: with correct option id 1 and submitted selection
`[12]`, the answer is marked correct with full points even though the
submitted set `{12}` differs from the correct set `{1}` — the claim's
biconditional is false on the code. -/
theorem mc_substring_match_scores_wrong_selection :
    scoreAnswer mcQuestion mcWrongAnswer = (true, 1) ∧
    mcWrongAnswer.selected_options.toFinset ≠ (specCorrectIds mcQuestion).toFinset := by
  constructor
  · decide
  · decide

/-- Claim C3: the spec's scenario says a true_false submission `[5]` with
correct option id 5 yields `isCorrect=true` with full points.  The code
compares `str(correct_option.id) == str(selected_options)`, i.e.
`"5" == "[5]"`, which is false: the submission selecting exactly the
correct option id is scored incorrect with zero points. -/
theorem tf_correct_selection_scored_incorrect :
    (correctOption tfQuestion).map QuestionOption.id = some 5 ∧
    tfRightAnswer.selected_options = [5] ∧
    scoreAnswer tfQuestion tfRightAnswer = (false, 0) := by
  refine ⟨by decide, by decide, by decide⟩

/-- Claim C7 counterexample: the answer row recorded for a submitted
short_answer question carries `is_correct = some false`, not the claimed
null (`none`). -/
theorem short_answer_is_correct_not_null_cex :
    (scoreLoop [saQuestion] 31 [saAnswer]).2.2.map QuizAnswer.is_correct ≠
      [(none : Option Bool)] := by
  decide

/-- Claim C7 as amended: a submitted answer to a short_answer question is
recorded with `pointsEarned = 0` and `isCorrect = false` (not null —
indistinguishable from a graded wrong answer), while the question's points
are still added to the running max score. -/
theorem short_answer_recorded_false_zero_counted_in_max
    (questions : List Question) (sid : Nat) (a : AnsData) (rest : List AnsData)
    (q : Question)
    (hfind : questions.find? (fun qq => qq.id == a.question_id) = some q)
    (hty : q.question_type = "short_answer") :
    (scoreLoop questions sid (a :: rest)).1 = q.points + (scoreLoop questions sid rest).1 ∧
    (scoreLoop questions sid (a :: rest)).2.1 = (scoreLoop questions sid rest).2.1 ∧
    (scoreLoop questions sid (a :: rest)).2.2 =
      { submission_id := sid
        question_id := q.id
        answer_text := a.answer_text
        selected_options := a.selected_options
        is_correct := some false
        points_earned := 0 } :: (scoreLoop questions sid rest).2.2 := by
  have hsa : scoreAnswer q a = (false, 0) := by
    unfold scoreAnswer
    rw [hty]
    simp
  rw [scoreLoop_cons_some questions sid a rest q hfind, hsa]
  dsimp only
  exact ⟨rfl, zero_add _, rfl⟩

/-- Witness for the amended C7 theorem at a concrete short_answer
question and answer. -/
theorem short_answer_recorded_false_zero_counted_in_max_witness :
    (scoreLoop [saQuestion] 31 [saAnswer]).1 = saQuestion.points + (scoreLoop [saQuestion] 31 []).1 ∧
    (scoreLoop [saQuestion] 31 [saAnswer]).2.1 = (scoreLoop [saQuestion] 31 []).2.1 ∧
    (scoreLoop [saQuestion] 31 [saAnswer]).2.2 =
      { submission_id := 31
        question_id := saQuestion.id
        answer_text := saAnswer.answer_text
        selected_options := saAnswer.selected_options
        is_correct := some false
        points_earned := 0 } :: (scoreLoop [saQuestion] 31 []).2.2 :=
  short_answer_recorded_false_zero_counted_in_max [saQuestion] 31 saAnswer [] saQuestion
    (by decide) (by decide)

/-- Claim C4 counterexample: on a quiz holding both `mcQuestion` (1 point)
and `tfQuestion` (2 points), a submission answering only `mcQuestion`
gets `max_score = 1`, not the spec's sum `3` over every scoreable question
of the quiz — the computed max score depends on which questions were
answered. -/
theorem max_score_counts_only_submitted_answers_cex :
    ((submit_quiz quizFix [mcQuestion, tfQuestion] (some studentUser) subFix
        [mcRightAnswer] 200).toOption.map (fun r => r.2.2.max_score)) ≠
      some (specMaxScore [mcQuestion, tfQuestion] quizFix.id) := by
  have hmc : pyStrIn (pyStrNat 1) (pyStrNatList [1]) = true := by decide
  have h1 : ((submit_quiz quizFix [mcQuestion, tfQuestion] (some studentUser) subFix
      [mcRightAnswer] 200).toOption.map (fun r => r.2.2.max_score)) = some 1 := by
    norm_num [submit_quiz, scoreLoop, scoreAnswer, correctOption, mcQuestion, tfQuestion,
      mcRightAnswer, subFix, quizFix, studentUser, hmc, Except.toOption]
  have h2 : specMaxScore [mcQuestion, tfQuestion] quizFix.id = 3 := by
    norm_num [specMaxScore, mcQuestion, tfQuestion, quizFix]
  rw [h1, h2]
  norm_num

/-- Claim C4 as amended: the computed max score is the sum of `points`
over the submitted answers whose `question_id` resolves to a stored
question (with multiplicity), so it depends on which questions the student
answered; an answer referencing an unknown question contributes nothing. -/
theorem max_score_is_sum_over_submitted_answers (quiz : Quiz)
    (questions : List Question) (u : UserM) (submission : QuizSubmission)
    (answers : List AnsData) (now : Nat)
    (hstu : submission.student_id = u.id) (hns : submission.submitted_at = none) :
    ∃ sub' anss res,
      submit_quiz quiz questions (some u) submission answers now = .ok (sub', anss, res) ∧
      res.max_score = (answers.map (fun a =>
        match questions.find? (fun qq => qq.id == a.question_id) with
        | some q => q.points
        | none => 0)).sum := by
  refine ⟨_, _, _, submit_quiz_eq_ok quiz questions u submission answers now hstu hns, ?_⟩
  simpa using scoreLoop_total_eq_sum questions submission.id answers

/-- Witness for the amended C4 theorem at a concrete submission. -/
theorem max_score_is_sum_over_submitted_answers_witness :
    ∃ sub' anss res,
      submit_quiz quizFix [mcQuestion, tfQuestion] (some studentUser) subFix
        [mcRightAnswer] 200 = .ok (sub', anss, res) ∧
      res.max_score = ([mcRightAnswer].map (fun a =>
        match [mcQuestion, tfQuestion].find? (fun qq => qq.id == a.question_id) with
        | some q => q.points
        | none => 0)).sum :=
  max_score_is_sum_over_submitted_answers quizFix [mcQuestion, tfQuestion] studentUser
    subFix [mcRightAnswer] 200 rfl rfl

/-- Claim C2: starting from a table with no attempts for the (quiz,
student) pair, every reachable table state has attempt numbers exactly
`1, ..., n` (no duplicates, no gaps) with `n ≤ maxAttempts`; while the
count is below `maxAttempts` a start succeeds and assigns
`attemptNumber = priorCount + 1`, and a start when the count equals
`maxAttempts` fails with the limit error, creating no new row (the error
branch returns before any insert). -/
theorem start_attempt_numbers_consecutive_and_bounded (quiz : Quiz) (uid : Nat)
    (store : List QuizSubmission) (h : StartReachable quiz uid store) :
    (pairAttempts quiz uid store).map QuizSubmission.attempt_number =
        List.range' 1 (pairAttempts quiz uid store).length ∧
    (pairAttempts quiz uid store).length ≤ quiz.max_attempts ∧
    (∀ u : UserM, u.id = uid → ∀ newId now : Nat,
        quiz.is_published = true →
        (pairAttempts quiz uid store).length < quiz.max_attempts →
        start_quiz quiz u store newId now =
          .ok (newSubmission quiz u store newId now,
               store ++ [newSubmission quiz u store newId now]) ∧
        (newSubmission quiz u store newId now).attempt_number =
          (pairAttempts quiz uid store).length + 1) ∧
    (∀ u : UserM, u.id = uid → ∀ newId now : Nat,
        quiz.is_published = true →
        (pairAttempts quiz uid store).length = quiz.max_attempts →
        start_quiz quiz u store newId now = .error .MaxAttemptsReached) := by
  obtain ⟨h1, h2⟩ := startReachable_attempt_numbers quiz uid store h
  refine ⟨h1, h2, ?_, ?_⟩
  · intro u hu newId now hpub hlt
    rw [← hu] at hlt
    exact ⟨start_quiz_eq_ok quiz u store newId now hpub hlt,
           by simp [newSubmission, hu]⟩
  · intro u hu newId now hpub heq
    rw [← hu] at heq
    exact start_quiz_limit quiz u store newId now hpub (le_of_eq heq.symm)

/-- Witness for the C2 theorem: with `max_attempts = 2`, after two
successful starts (attempt numbers 1 and 2) the third start fails with
the limit error; a second start against the one-element table succeeds
with attempt number 2. -/
theorem start_attempt_numbers_consecutive_and_bounded_witness :
    (pairAttempts quizFix 7 stW2).map QuizSubmission.attempt_number =
        List.range' 1 (pairAttempts quizFix 7 stW2).length ∧
    (pairAttempts quizFix 7 stW2).length ≤ quizFix.max_attempts ∧
    start_quiz quizFix studentUser stW2 52 300 = .error .MaxAttemptsReached ∧
    (start_quiz quizFix studentUser [subW1] 51 200 =
        .ok (newSubmission quizFix studentUser [subW1] 51 200,
             [subW1] ++ [newSubmission quizFix studentUser [subW1] 51 200]) ∧
     (newSubmission quizFix studentUser [subW1] 51 200).attempt_number =
        (pairAttempts quizFix 7 [subW1]).length + 1) := by
  have hreach1 : StartReachable quizFix 7 [subW1] :=
    StartReachable.step [] studentUser 50 100 subW1 [subW1] rfl
      (StartReachable.init [] rfl) rfl
  have hreach2 : StartReachable quizFix 7 stW2 :=
    StartReachable.step [subW1] studentUser 51 200 subW2 stW2 rfl hreach1 rfl
  obtain ⟨h1, h2, h3, h4⟩ :=
    start_attempt_numbers_consecutive_and_bounded quizFix 7 stW2 hreach2
  obtain ⟨g1, g2, g3, g4⟩ :=
    start_attempt_numbers_consecutive_and_bounded quizFix 7 [subW1] hreach1
  exact ⟨h1, h2, h4 studentUser rfl 52 300 rfl (by decide),
         g3 studentUser rfl 51 200 rfl (by decide)⟩

/-- Claim C5: a successful submit stamps `submitted_at`; any later submit
call on the resulting attempt row — whatever quiz, questions, answers or
clock — fails with the already-submitted error (the code's Conflict), so
the attempt's stored score fields and `QuizAnswer` rows are written only
by the one successful call (the error path returns before the scoring
loop and writes nothing). -/
theorem resubmit_fails_after_successful_submit (quiz : Quiz)
    (questions : List Question) (u : UserM) (submission : QuizSubmission)
    (answers : List AnsData) (now : Nat) (sub' : QuizSubmission)
    (anss : List QuizAnswer) (res : SubmitResult)
    (hok : submit_quiz quiz questions (some u) submission answers now =
      .ok (sub', anss, res)) :
    sub'.submitted_at = some now ∧
    ∀ (quiz2 : Quiz) (questions2 : List Question) (answers2 : List AnsData)
      (now2 : Nat),
      submit_quiz quiz2 questions2 (some u) sub' answers2 now2 =
        .error .AlreadySubmitted := by
  by_cases h1 : submission.student_id = u.id
  case neg =>
    rw [submit_quiz] at hok
    rw [if_pos h1] at hok
    exact absurd hok (by simp)
  by_cases h2 : submission.submitted_at = none
  case neg =>
    rw [submit_quiz, if_neg (by simp [h1])] at hok
    rw [if_pos (Option.isSome_iff_ne_none.mpr h2)] at hok
    exact absurd hok (by simp)
  rw [submit_quiz_eq_ok quiz questions u submission answers now h1 h2,
    Except.ok.injEq] at hok
  have hsub' := congrArg Prod.fst hok
  dsimp only at hsub'
  constructor
  · rw [← hsub']
  · intro quiz2 questions2 answers2 now2
    have hstu2 : sub'.student_id = u.id := by rw [← hsub']; exact h1
    have hsome : sub'.submitted_at.isSome = true := by rw [← hsub']; rfl
    rw [submit_quiz, if_neg (by simp [hstu2]), if_pos hsome]

/-- Witness for the C5 theorem: submitting `subFix` once succeeds,
producing `subDone` with `submitted_at = 200`; submitting `subDone`
again fails with the already-submitted error. -/
theorem resubmit_fails_after_successful_submit_witness :
    subDone.submitted_at = some 200 ∧
    submit_quiz quizFix [] (some studentUser) subDone [] 300 =
      .error .AlreadySubmitted := by
  obtain ⟨h1, h2⟩ :=
    resubmit_fails_after_successful_submit quizFix [] studentUser subFix [] 200
      subDone [] resEmpty rfl
  exact ⟨h1, h2 quizFix [] [] 300⟩

/-- Claim C6: for a successful submission, `percentage` is
`score / maxScore * 100` when `maxScore > 0` and `0` otherwise; `passed`
holds exactly when `percentage` meets the quiz's passing score; and under
the data model's non-negative points, a positive `maxScore` forces
`0 ≤ percentage ≤ 100`. -/
theorem percentage_passed_formula_and_bounds (quiz : Quiz)
    (questions : List Question) (u : UserM) (submission : QuizSubmission)
    (answers : List AnsData) (now : Nat) (sub' : QuizSubmission)
    (anss : List QuizAnswer) (res : SubmitResult)
    (hpts : ∀ q ∈ questions, 0 ≤ q.points)
    (hok : submit_quiz quiz questions (some u) submission answers now =
      .ok (sub', anss, res)) :
    res.percentage =
      (if res.max_score > 0 then res.score / res.max_score * 100 else 0) ∧
    (res.passed = true ↔ res.percentage ≥ quiz.passing_score) ∧
    (res.max_score > 0 → 0 ≤ res.percentage ∧ res.percentage ≤ 100) := by
  by_cases h1 : submission.student_id = u.id
  case neg =>
    rw [submit_quiz] at hok
    rw [if_pos h1] at hok
    exact absurd hok (by simp)
  by_cases h2 : submission.submitted_at = none
  case neg =>
    rw [submit_quiz, if_neg (by simp [h1])] at hok
    rw [if_pos (Option.isSome_iff_ne_none.mpr h2)] at hok
    exact absurd hok (by simp)
  rw [submit_quiz_eq_ok quiz questions u submission answers now h1 h2,
    Except.ok.injEq] at hok
  have hres := congrArg (fun t => t.2.2) hok
  dsimp only at hres
  obtain ⟨hE, hT⟩ := scoreLoop_earned_le_total questions submission.id hpts answers
  refine ⟨?_, ?_, ?_⟩
  · rw [← hres]
  · rw [← hres]
    dsimp only
    exact decide_eq_true_iff
  · intro hpos
    rw [← hres] at hpos ⊢
    dsimp only at hpos ⊢
    rw [if_pos hpos]
    have hfrac0 : 0 ≤ (scoreLoop questions submission.id answers).2.1 /
        (scoreLoop questions submission.id answers).1 :=
      div_nonneg hE (le_of_lt hpos)
    have hfrac1 : (scoreLoop questions submission.id answers).2.1 /
        (scoreLoop questions submission.id answers).1 ≤ 1 :=
      (div_le_one hpos).mpr hT
    constructor
    · nlinarith
    · nlinarith

/-- Witness for the C6 theorem: the concrete submission of
`[mcRightAnswer]` on `quizFix` scores 1 of 1, percentage 100, passed. -/
theorem percentage_passed_formula_and_bounds_witness :
    resScored.percentage =
      (if resScored.max_score > 0 then resScored.score / resScored.max_score * 100 else 0) ∧
    (resScored.passed = true ↔ resScored.percentage ≥ quizFix.passing_score) ∧
    (resScored.max_score > 0 → 0 ≤ resScored.percentage ∧ resScored.percentage ≤ 100) := by
  have hmc : pyStrIn (pyStrNat 1) (pyStrNatList [1]) = true := by decide
  have hok : submit_quiz quizFix [mcQuestion, tfQuestion] (some studentUser) subFix
      [mcRightAnswer] 200 = .ok (subScored, [mcAnswerRow], resScored) := by
    norm_num [submit_quiz, scoreLoop, scoreAnswer, correctOption, mcQuestion, tfQuestion,
      mcRightAnswer, subFix, quizFix, studentUser, hmc, subScored, mcAnswerRow, resScored]
  exact percentage_passed_formula_and_bounds quizFix [mcQuestion, tfQuestion] studentUser
    subFix [mcRightAnswer] 200 subScored [mcAnswerRow] resScored (by decide) hok

/-- Claim C8 counterexample: for a student caller on the published
`quizFix`, the payload's options entry for `mcQuestion` is null, not the
claimed id/text/order list with only `isCorrect` removed. -/
theorem student_get_quiz_returns_null_options_cex :
    ((get_quiz quizFix [mcQuestion] (some studentUser)).toOption.map
        (fun pl => pl.questions.map QuestionPayload.options)) ≠
      some [some ((sortedOptions mcQuestion).map (fun o =>
        ({ id := o.id, option_text := o.option_text, order := o.order } : OptionPayload)))] := by
  decide

/-- Claim C8 as amended: for a student caller on a published quiz the
payload still lists every question (same ids, in order), but each
question's `options` entry is null — options are withheld from students
entirely, not merely stripped of the correctness flag. -/
theorem student_get_quiz_withholds_options (quiz : Quiz)
    (questions : List Question) (u : UserM)
    (hpub : quiz.is_published = true) (hrole : u.role = "student") :
    ∃ pl, get_quiz quiz questions (some u) = .ok pl ∧
      pl.questions.map QuestionPayload.options =
        questions.map (fun _ => (none : Option (List OptionPayload))) ∧
      pl.questions.map QuestionPayload.id = questions.map Question.id := by
  have hcond : ¬(quiz.is_published = false ∧ isInstructorOrAdmin (some u) = false) := by
    simp [hpub]
  refine ⟨{ id := quiz.id
            module_id := quiz.module_id
            title := quiz.title
            description := quiz.description
            quiz_type := quiz.quiz_type
            time_limit := quiz.time_limit
            max_attempts := quiz.max_attempts
            passing_score := quiz.passing_score
            shuffle_questions := quiz.shuffle_questions
            show_results := quiz.show_results
            questions := questions.map (serializeQuestion (some u)) }, ?_, ?_, ?_⟩
  · unfold get_quiz
    rw [if_neg hcond]
  · rw [List.map_map]
    have hconst : (QuestionPayload.options ∘ serializeQuestion (some u)) =
        fun _ => (none : Option (List OptionPayload)) := by
      funext q
      simp [serializeQuestion, isStudentUser, hrole]
    rw [hconst]
  · simp [serializeQuestion]

/-- Witness for the amended C8 theorem at the concrete published quiz,
question and student. -/
theorem student_get_quiz_withholds_options_witness :
    ∃ pl, get_quiz quizFix [mcQuestion] (some studentUser) = .ok pl ∧
      pl.questions.map QuestionPayload.options =
        [mcQuestion].map (fun _ => (none : Option (List OptionPayload))) ∧
      pl.questions.map QuestionPayload.id = [mcQuestion].map Question.id :=
  student_get_quiz_withholds_options quizFix [mcQuestion] studentUser rfl rfl

/-- Claim C9 counterexample: an instructor's `create_quiz` request holding
a multiple_choice question with zero correct-marked options succeeds and
stores the question with zero correct options — it is not refused with a
validation error. -/
theorem create_quiz_accepts_zero_correct_options_cex :
    ((create_quiz (some instructorUser) zeroCorrectData 40 60).toOption.map
        (fun r => r.2.map (fun q =>
          (q.options.filter (fun o => o.is_correct)).length))) = some [0] := by
  decide

/-- Claim C9 as amended: `create_quiz` performs no validation of option
correctness flags: for any admin/instructor caller it succeeds and stores
every question's options with exactly the supplied `is_correct` marks
(zero, one, or many correct options per question). -/
theorem create_quiz_stores_options_without_correctness_validation (u : UserM)
    (data : QuizData) (quizId qidBase : Nat)
    (hrole : u.role = "admin" ∨ u.role = "instructor") :
    ∃ quiz qs, create_quiz (some u) data quizId qidBase = .ok (quiz, qs) ∧
      qs.map (fun q => (q.options.filter (fun o => o.is_correct)).length) =
        data.questions.map (fun qd =>
          (qd.options.filter (fun od => od.is_correct)).length) := by
  have hadmin : isInstructorOrAdmin (some u) = true := by
    rcases hrole with h | h <;> simp [isInstructorOrAdmin, h]
  exact ⟨_, _, create_quiz_eq_ok u data quizId qidBase hadmin,
    buildQuestions_correct_counts quizId qidBase data.questions 0⟩

/-- Witness for the amended C9 theorem: a request with two correct-marked
options on one question is accepted and stored as supplied. -/
theorem create_quiz_stores_options_without_correctness_validation_witness :
    ∃ quiz qs, create_quiz (some instructorUser) twoCorrectData 41 70 = .ok (quiz, qs) ∧
      qs.map (fun q => (q.options.filter (fun o => o.is_correct)).length) =
        twoCorrectData.questions.map (fun qd =>
          (qd.options.filter (fun od => od.is_correct)).length) :=
  create_quiz_stores_options_without_correctness_validation instructorUser twoCorrectData
    41 70 (Or.inr rfl)

/-- Claim C10: `submit_quiz` never checks that the submission row named in
the request body belongs to the quiz named in the URL: even when
`submission.quiz_id` differs from the URL quiz's id, the submission is
scored, and its `passed` verdict is computed against the URL quiz's
passing score. -/
theorem submit_scores_against_url_quiz_regardless_of_submission_quiz
    (quiz : Quiz) (questions : List Question) (u : UserM)
    (submission : QuizSubmission) (answers : List AnsData) (now : Nat)
    (hmismatch : submission.quiz_id ≠ quiz.id)
    (hstu : submission.student_id = u.id)
    (hns : submission.submitted_at = none) :
    ∃ sub' anss res,
      submit_quiz quiz questions (some u) submission answers now = .ok (sub', anss, res) ∧
      res.passed = decide (res.percentage ≥ quiz.passing_score) := by
  refine ⟨_, _, _,
    submit_quiz_eq_ok quiz questions u submission answers now hstu hns, ?_⟩
  rfl

/-- Witness for the C10 theorem: `subFix` belongs to quiz 4 (`quizFix`,
passing score 60) but is submitted through the URL of quiz 9
(`quizZeroPass`, passing score 0); the empty submission scores 0% yet is
marked passed because the URL quiz's passing score 0 is used — against
the owning quiz's threshold 60 the same percentage would not pass. -/
theorem submit_scores_against_url_quiz_regardless_of_submission_quiz_witness :
    subFix.quiz_id ≠ quizZeroPass.id ∧
    (∃ sub' anss res,
      submit_quiz quizZeroPass [] (some studentUser) subFix [] 99 = .ok (sub', anss, res) ∧
      res.passed = decide (res.percentage ≥ quizZeroPass.passing_score)) ∧
    ((submit_quiz quizZeroPass [] (some studentUser) subFix [] 99).toOption.map
        (fun r => r.2.2.passed)) = some true ∧
    decide ((0 : ℚ) ≥ quizFix.passing_score) = false := by
  refine ⟨by decide,
    submit_scores_against_url_quiz_regardless_of_submission_quiz quizZeroPass [] studentUser
      subFix [] 99 (by decide) rfl rfl,
    by decide, by decide⟩
